import Mathlib

/-!
Verification of the `gin-api` webhook receiver (`src/main.go`) against its
natural-language specification.

The single handler `PostData` is a sequential pipeline:
compact the body (`json.Compact`), validate the `ticket` field
(`validator.v9` with tags `required,alphanum`), render indented JSON and
write `<data_dir>/<ticket>.json` (`json.Indent` + `ioutil.WriteFile`),
open a database connection (`InitDb` / `gorm.Open`, closed with `defer`),
insert a `BuildInfo` row (`db.Create`), and spawn the deploy executable
(`exec.Command` + `cmd.Start`, `log.Fatal` on failure).

The embedding below is a shallow one: external outcomes that the Go code
only observes (did the file write succeed, did `gorm.Open` error, did the
SQL insert succeed, did `cmd.Start` succeed) become boolean oracle
parameters, and the handler becomes a pure function from the parsed
request and those oracles to a trace of responses and side effects.
Go-specific control semantics are modelled explicitly: a `defer` runs on
normal return, while `log.Fatal` calls `os.Exit` which skips deferred
calls, and a `panic` raised inside `InitDb` happens before the caller's
`defer db.Close()` is registered.
-/

namespace GinApi

/-- A parsed JSON document.  `json.Compact` and `json.Indent` in Go are
byte-stream transformations that keep every token's text verbatim and only
edit inter-token whitespace, so the embedding keeps the token text:
`num` carries the literal's characters (a JSON number literal is never
empty, hence a head character plus the rest) and `str` carries the
characters between the quotes exactly as they appear in the request. -/
inductive Json where
  | null : Json
  | bool (b : Bool) : Json
  | num (head : Char) (tail : String) : Json
  | str (s : String) : Json
  | arr (elems : List Json) : Json
  | obj (fields : List (String × Json)) : Json
deriving Repr

mutual

/-- The compacted rendering of a document: the output of a successful
`json.Compact` (src/main.go line 126) on a body that parses to `j` —
all inter-token whitespace removed, token text untouched. -/
def Json.compactStr : Json → String
  | .null => "null"
  | .bool true => "true"
  | .bool false => "false"
  | .num head tail => String.mk (head :: tail.data)
  | .str s => "\"" ++ s ++ "\""
  | .arr [] => "[]"
  | .arr (x :: xs) =>
      "[" ++ x.compactStr ++ Json.compactped xs ++ "]"
  | .obj [] => "\x7b\x7d"
  | .obj ((k, v) :: kvs) =>
      "\x7b" ++ "\"" ++ k ++ "\":" ++ v.compactStr ++ Json.compactMembers kvs ++ "\x7d"

/-- Remaining array elements in compact form, each preceded by a comma. -/
def Json.compactped : List Json → String
  | [] => ""
  | x :: xs => "," ++ x.compactStr ++ Json.compactped xs

/-- Remaining object members in compact form, each preceded by a comma. -/
def Json.compactMembers : List (String × Json) → String
  | [] => ""
  | (k, v) :: kvs => "," ++ "\"" ++ k ++ "\":" ++ v.compactStr ++ Json.compactMembers kvs

end

/-- `2 * d` spaces: the indentation written by `json.Indent` with prefix
`""` and indent `"  "` (src/main.go line 163) at nesting depth `d`. -/
def indentPad (d : Nat) : String := String.mk (List.replicate (2 * d) ' ')

mutual

/-- The indented rendering produced by `json.Indent(jsonOut, payload.Bytes(),
"", "  ")` (src/main.go line 163) when `payload` is the compacted form of
`j`, at nesting depth `d`.  Mirrors `encoding/json`'s indenter: empty
composites stay `[]` / `{}` (the indent after an opening bracket is
delayed), each element starts on its own line one level deeper, a comma is
followed by a newline and the element indent, a colon is followed by a
single space, and the closing bracket returns to the enclosing depth. -/
def Json.indentStr (d : Nat) : Json → String
  | .null => "null"
  | .bool true => "true"
  | .bool false => "false"
  | .num head tail => String.mk (head :: tail.data)
  | .str s => "\"" ++ s ++ "\""
  | .arr [] => "[]"
  | .arr (x :: xs) =>
      "[\n" ++ indentPad (d + 1) ++ x.indentStr (d + 1) ++ Json.indentElems (d + 1) xs
        ++ "\n" ++ indentPad d ++ "]"
  | .obj [] => "\x7b\x7d"
  | .obj ((k, v) :: kvs) =>
      "\x7b" ++ "\n" ++ indentPad (d + 1) ++ "\"" ++ k ++ "\": " ++ v.indentStr (d + 1)
        ++ Json.indentMembers (d + 1) kvs ++ "\n" ++ indentPad d ++ "\x7d"

/-- Remaining array elements in indented form at depth `d`. -/
def Json.indentElems (d : Nat) : List Json → String
  | [] => ""
  | x :: xs => ",\n" ++ indentPad d ++ x.indentStr d ++ Json.indentElems d xs

/-- Remaining object members in indented form at depth `d`. -/
def Json.indentMembers (d : Nat) : List (String × Json) → String
  | [] => ""
  | (k, v) :: kvs =>
      ",\n" ++ indentPad d ++ "\"" ++ k ++ "\": " ++ v.indentStr d
        ++ Json.indentMembers d kvs

end

/-- ASCII-case-insensitive string comparison, as used by `encoding/json`
to match the JSON key `ticket` against the struct field `Ticket`. -/
def eqFold (a b : String) : Bool :=
  a.data.map Char.toLower == b.data.map Char.toLower

/-- Fold over the top-level members, keeping the last string value bound
to a key matching `ticket`; a member whose value is not a string leaves
the accumulator unchanged (`json.Unmarshal` records a type error and
keeps the field's previous value; the error itself is discarded at
src/main.go line 141). -/
def ticketFold : List (String × Json) → String → String
  | [], acc => acc
  | (k, v) :: rest, acc =>
      ticketFold rest
        (if eqFold k "ticket" then
          match v with
          | .str s => s
          | _ => acc
        else acc)

/-- The `Ticket` field after `json.Unmarshal(body.Bytes(), &tmp)`
(src/main.go line 141) into `Data{Ticket string}`: the last top-level
string member whose key matches `ticket` case-insensitively, and the zero
value `""` when the document is not an object or has no such member. -/
def getTicket : Json → String
  | .obj kvs => ticketFold kvs ""
  | _ => ""

/-- Characters accepted by the `alphanum` tag of `validator.v9`
(regex `^[a-zA-Z0-9]+$`). -/
def isAlphanumChar (c : Char) : Bool :=
  ('0' ≤ c && c ≤ '9') || ('a' ≤ c && c ≤ 'z') || ('A' ≤ c && c ≤ 'Z')

/-- `validator.v9` validation of `Data{Ticket string}` with tags
`required,alphanum` (src/main.go line 38): `required` fails exactly on the
zero value `""`, then `alphanum` fails if any character is outside
`[a-zA-Z0-9]`; the validator stops at a field's first failing tag, so at
most one message is produced, formatted as at src/main.go lines 146-153. -/
def validateTicket (t : String) : Option String :=
  if t = "" then some "Value for ticket is required."
  else if t.data.all isAlphanumChar then none
  else some ("Value for ticket (" ++ t ++ ") needs to be alphanum.")

/-- The timestamp captured at src/main.go line 134 (`time.Now().UTC()`),
broken into the fields the format string consumes. -/
structure Timestamp where
  year : Nat
  month : Nat
  day : Nat
  hour : Nat
  minute : Nat
  second : Nat
deriving Repr, DecidableEq

/-- Go's `%02d` on a non-negative value: decimal, left-padded with `0`
to two digits. -/
def pad2 (n : Nat) : String :=
  if n < 10 then "0" ++ toString n else toString n

/-- `fmt.Sprintf("%d-%02d-%02d %02d:%02d:%02d", ...)`
(src/main.go lines 135-137). -/
def formatTimestamp (t : Timestamp) : String :=
  toString t.year ++ "-" ++ pad2 t.month ++ "-" ++ pad2 t.day ++ " "
    ++ pad2 t.hour ++ ":" ++ pad2 t.minute ++ ":" ++ pad2 t.second

/-- The configuration fields the handler reads (`Config`,
src/main.go lines 26-34; only these three reach `PostData`/`InitDb`). -/
structure Config where
  dbFile : String
  dataDir : String
  execFile : String
deriving Repr, DecidableEq

/-- A row of the `build_info` table (`BuildInfo`, src/main.go lines 42-46;
the auto-increment id is assigned by the engine and not set by the code). -/
structure BuildInfo where
  date : String
  data : String
deriving Repr, DecidableEq

/-- A response body: gin's `c.JSON` is called either with
`gin.H{"error": msg}` or with `gin.H{"success": info}`. -/
inductive RespBody where
  | err (msg : String) : RespBody
  | success (info : BuildInfo) : RespBody
deriving Repr, DecidableEq

/-- One `c.JSON(status, body)` call. -/
structure Response where
  status : Nat
  body : RespBody
deriving Repr, DecidableEq

/-- A successful `cmd.Start()` of the deploy executable with its
environment (src/main.go lines 203-212). -/
structure Spawn where
  exe : String
  env : List String
deriving Repr, DecidableEq

/-- How the handler's control flow ends.  `normal` is an ordinary return
(deferred calls run); `fatalExit` is `log.Fatal`, i.e. `os.Exit(1)`,
which terminates the whole process and skips deferred calls;
`panicked` is a Go panic escaping the handler (recovered by gin's
recovery middleware, but deferred calls registered after the panic
point never run). -/
inductive ExitKind where
  | normal : ExitKind
  | fatalExit : ExitKind
  | panicked : ExitKind
deriving Repr, DecidableEq

/-- The observable side effects of one request. -/
structure Effects where
  fileWrites : List (String × String)
  dbOpened : Bool
  dbClosed : Bool
  inserts : List BuildInfo
  spawns : List Spawn
deriving Repr, DecidableEq

/-- No side effects at all. -/
def Effects.none : Effects :=
  { fileWrites := [], dbOpened := false, dbClosed := false, inserts := [], spawns := [] }

/-- The outcome of one invocation of the handler: every `c.JSON` call in
order, the side effects, and how control ended. -/
structure Outcome where
  responses : List Response
  effects : Effects
  exit : ExitKind
deriving Repr, DecidableEq

/-- The `PostData` handler (src/main.go lines 119-218) as a function of
the parsed request and the environment's failure oracles.

* `parsed` is the result of `json.Compact` (line 126): `none` when the
  body is not valid JSON, `some j` when it parses to `j`.
* `t` is the wall-clock time read at line 134.
* `writeOk` is whether `ioutil.WriteFile` (line 174) succeeds.
* `openOk` is whether `gorm.Open` inside `InitDb` (line 61) succeeds;
  on failure `InitDb` panics (line 71) before the caller's
  `defer db.Close()` (line 184) is registered.
* `insertOk` is whether the SQL insert behind `db.Create` (line 193)
  succeeds; the Go code never inspects this result.
* `spawnOk` is whether `cmd.Start()` (line 212) succeeds; on failure the
  code calls `log.Fatal` (line 214), which exits the process without
  running deferred calls.

`json.Indent` at line 163 is applied to the output of a successful
`json.Compact`, which is always valid JSON, so the 454 branch cannot be
taken and indentation is total here. -/
def postData (conf : Config) (baseEnv : List String) (t : Timestamp)
    (parsed : Option Json) (writeOk openOk insertOk spawnOk : Bool) : Outcome :=
  match parsed with
  | Option.none =>
      { responses := [⟨452, .err "Could not convert POST data to JSON"⟩],
        effects := Effects.none, exit := .normal }
  | some j =>
      let now := formatTimestamp t
      let ticket := getTicket j
      match validateTicket ticket with
      | some msg =>
          { responses := [⟨453, .err ("Validation error. " ++ msg)⟩],
            effects := Effects.none, exit := .normal }
      | Option.none =>
          let jsonOut := j.indentStr 0 ++ "\n"
          let outFile := conf.dataDir ++ "/" ++ ticket ++ ".json"
          if ¬ writeOk then
            { responses := [⟨455, .err ("Unable to create " ++ outFile)⟩],
              effects := Effects.none, exit := .normal }
          else
            let wrote : List (String × String) := [(outFile, jsonOut)]
            if ¬ openOk then
              { responses := [],
                effects := { fileWrites := wrote, dbOpened := false, dbClosed := false,
                             inserts := [], spawns := [] },
                exit := .panicked }
            else
              let info : BuildInfo := { date := now, data := j.compactStr }
              if info.data ≠ "" then
                let ins := if insertOk then [info] else []
                if spawnOk then
                  { responses := [⟨201, .success info⟩],
                    effects := { fileWrites := wrote, dbOpened := true, dbClosed := true,
                                 inserts := ins,
                                 spawns := [⟨conf.execFile,
                                            baseEnv ++ ["JSON_FILE=" ++ outFile]⟩] },
                    exit := .normal }
                else
                  { responses := [⟨201, .success info⟩],
                    effects := { fileWrites := wrote, dbOpened := true, dbClosed := false,
                                 inserts := ins, spawns := [] },
                    exit := .fatalExit }
              else
                { responses := [⟨456, .err "Fields are empty"⟩],
                  effects := { fileWrites := wrote, dbOpened := true, dbClosed := true,
                               inserts := [], spawns := [] },
                  exit := .normal }

/-- `TokenAuthMiddleware` (src/main.go lines 98-116) followed by
`PostData`, as wired in `main` (lines 304-311): the middleware is
installed only when the `API_TOKEN` secret is non-empty; a missing
`token` header reads as `""` through `Header.Get`. -/
def handleRequest (secret : String) (tokenHeader : String)
    (conf : Config) (baseEnv : List String) (t : Timestamp)
    (parsed : Option Json) (writeOk openOk insertOk spawnOk : Bool) : Outcome :=
  if secret ≠ "" then
    if tokenHeader = "" then
      { responses := [⟨401, .err "API token required"⟩],
        effects := Effects.none, exit := .normal }
    else if tokenHeader ≠ secret then
      { responses := [⟨401, .err "Invalid API token"⟩],
        effects := Effects.none, exit := .normal }
    else
      postData conf baseEnv t parsed writeOk openOk insertOk spawnOk
  else
    postData conf baseEnv t parsed writeOk openOk insertOk spawnOk

/-- The data directory's files after the handler's writes:
`ioutil.WriteFile` with flags `O_WRONLY|O_CREATE|O_TRUNC` replaces any
existing content at the path. -/
def applyWrites (fs : String → Option String) : List (String × String) → String → Option String
  | [], p => fs p
  | (path, content) :: rest, p =>
      applyWrites (fun q => if q = path then some content else fs q) rest p

/-! Concrete instances used in counterexamples and witnesses: the
configuration, a request time, and the spec's example payload
`{"ticket":"AB12","x":1}`. -/

/-- A concrete configuration. -/
def conf0 : Config :=
  { dbFile := "/var/db/build.db", dataDir := "/var/data", execFile := "/usr/local/bin/deploy.sh" }

/-- A concrete request time. -/
def t0 : Timestamp := ⟨2026, 10, 11, 3, 4, 5⟩

/-- The parsed form of the spec's example body: an object with a string
member `ticket` holding `AB12` and a numeric member `x` holding `1`. -/
def reqJson : Json := .obj [("ticket", .str "AB12"), ("x", .num '1' "")]

/-- A parsed body whose `ticket` value `a b` contains a space, violating
the `alphanum` tag. -/
def badTicketJson : Json := .obj [("ticket", .str "a b")]

/-! Helper lemmas. -/

/-- Appending to a non-empty string yields a non-empty string. -/
theorem append_ne_empty (s t : String) (h : s ≠ "") : s ++ t ≠ "" := by
  intro he
  apply h
  apply String.ext
  have hd := congrArg String.data he
  rw [String.data_append] at hd
  exact (List.append_eq_nil.mp hd).1

/-- Successful compaction never yields the empty string: every JSON value
renders to at least one character. -/
theorem Json.compactStr_ne_empty : ∀ j : Json, j.compactStr ≠ ""
  | .null => by decide
  | .bool true => by decide
  | .bool false => by decide
  | .num c s => by
      intro h
      have hd := congrArg String.data h
      simp only [Json.compactStr] at hd
      exact List.cons_ne_nil c s.data hd
  | .str s => by
      simp only [Json.compactStr]
      repeat apply append_ne_empty
      decide
  | .arr [] => by decide
  | .arr (x :: xs) => by
      simp only [Json.compactStr]
      repeat apply append_ne_empty
      decide
  | .obj [] => by decide
  | .obj ((k, v) :: kvs) => by
      simp only [Json.compactStr]
      repeat apply append_ne_empty
      decide

/-- A ticket that passes validation is non-empty and all-alphanumeric. -/
theorem validateTicket_none (t : String) (h : validateTicket t = none) :
    t ≠ "" ∧ t.data.all isAlphanumChar = true := by
  by_cases h0 : t = "" <;> by_cases h1 : t.data.all isAlphanumChar = true <;>
    simp [validateTicket, h0, h1] at h ⊢

/-- A character that is not alphanumeric does not occur in an
all-alphanumeric string. -/
theorem not_mem_of_all_alphanum (t : String) (c : Char)
    (h : t.data.all isAlphanumChar = true) (hc : isAlphanumChar c = false) :
    c ∉ t.data := by
  intro hmem
  have := List.all_eq_true.mp h c hmem
  rw [hc] at this
  exact Bool.noConfusion this

/-- C1, counterexample: the code never inspects the result of `db.Create`.
On the spec's example payload with a failing insert (and everything else
succeeding), no row is stored, yet the handler still answers
`201 {"success": ...}` and still launches the deploy process — refuting
both "the pipeline fails with PersistenceError when the database insert
fails" and "no success response is returned and no deploy process is
started when the insert fails". -/
theorem c1_insert_failure_counterexample :
    (postData conf0 [] t0 (some reqJson) true true false true).effects.inserts = [] ∧
    (postData conf0 [] t0 (some reqJson) true true false true).responses =
      [⟨201, .success ⟨formatTimestamp t0, reqJson.compactStr⟩⟩] ∧
    (postData conf0 [] t0 (some reqJson) true true false true).effects.spawns ≠ [] ∧
    (postData conf0 [] t0 (some reqJson) true true false true).exit = ExitKind.normal := by
  refine ⟨rfl, rfl, ?_, rfl⟩
  decide

/-- C1, amended: once validation, the file write and the database open
succeed, the outcome of the insert is ignored — the handler answers
`201 {"success": ...}` and the deploy process is launched exactly when
`cmd.Start` succeeds, in both cases regardless of whether the insert
stored a row. -/
theorem c1_insert_error_ignored (conf : Config) (baseEnv : List String) (t : Timestamp)
    (j : Json) (insertOk spawnOk : Bool)
    (hv : validateTicket (getTicket j) = none) :
    (postData conf baseEnv t (some j) true true insertOk spawnOk).responses =
      [⟨201, .success ⟨formatTimestamp t, j.compactStr⟩⟩] ∧
    (postData conf baseEnv t (some j) true true insertOk spawnOk).effects.spawns =
      (if spawnOk then
        [⟨conf.execFile,
          baseEnv ++ ["JSON_FILE=" ++ (conf.dataDir ++ "/" ++ getTicket j ++ ".json")]⟩]
       else []) ∧
    (postData conf baseEnv t (some j) true true insertOk spawnOk).effects.inserts =
      (if insertOk then [⟨formatTimestamp t, j.compactStr⟩] else []) := by
  cases insertOk <;> cases spawnOk <;>
    simp [postData, hv, Json.compactStr_ne_empty j]

/-- C1, witness for the amended theorem at a concrete input with a
failing insert. -/
theorem c1_insert_error_ignored_witness :
    (postData conf0 [] t0 (some reqJson) true true false true).responses =
      [⟨201, .success ⟨formatTimestamp t0, reqJson.compactStr⟩⟩] ∧
    (postData conf0 [] t0 (some reqJson) true true false true).effects.spawns =
      [⟨conf0.execFile, [] ++ ["JSON_FILE=" ++ (conf0.dataDir ++ "/" ++ getTicket reqJson ++ ".json")]⟩] ∧
    (postData conf0 [] t0 (some reqJson) true true false true).effects.inserts = [] := by
  have h := c1_insert_error_ignored conf0 [] t0 reqJson false true (by decide)
  simpa using h

/-- C2, counterexample: on the deploy-spawn-failure path the handler hits
`log.Fatal`, i.e. `os.Exit`, which does not run deferred calls — the
connection opened by `InitDb` is left unclosed on that exit path. -/
theorem c2_fatal_skips_close_counterexample :
    (postData conf0 [] t0 (some reqJson) true true true false).effects.dbOpened = true ∧
    (postData conf0 [] t0 (some reqJson) true true true false).effects.dbClosed = false ∧
    (postData conf0 [] t0 (some reqJson) true true true false).exit = ExitKind.fatalExit :=
  ⟨rfl, rfl, rfl⟩

/-- C2, amended: on every exit path on which the handler returns (success
or error response alike), an opened database connection is closed by the
deferred `db.Close`; the guarantee does not extend to the
deploy-spawn-failure path, where `log.Fatal` terminates the process
without running deferred calls. -/
theorem c2_close_on_every_return (conf : Config) (baseEnv : List String) (t : Timestamp)
    (parsed : Option Json) (writeOk openOk insertOk spawnOk : Bool)
    (h : (postData conf baseEnv t parsed writeOk openOk insertOk spawnOk).exit = ExitKind.normal) :
    (postData conf baseEnv t parsed writeOk openOk insertOk spawnOk).effects.dbClosed =
      (postData conf baseEnv t parsed writeOk openOk insertOk spawnOk).effects.dbOpened := by
  cases parsed with
  | none => simp [postData, Effects.none]
  | some j =>
      cases hv : validateTicket (getTicket j) <;>
        cases writeOk <;> cases openOk <;> cases insertOk <;> cases spawnOk <;>
        simp_all [postData, Effects.none, Json.compactStr_ne_empty j]

/-- C2, witness for the amended theorem on the fully successful path. -/
theorem c2_close_on_every_return_witness :
    (postData conf0 [] t0 (some reqJson) true true true true).effects.dbClosed =
      (postData conf0 [] t0 (some reqJson) true true true true).effects.dbOpened :=
  c2_close_on_every_return conf0 [] t0 (some reqJson) true true true true (by decide)

/-- C3: when the deploy executable cannot be started (`cmd.Start` fails),
the handler reaches `log.Fatal` and the whole serving process terminates,
on every request that gets that far, whatever the insert did. -/
theorem c3_spawn_failure_terminates_process (conf : Config) (baseEnv : List String)
    (t : Timestamp) (j : Json) (insertOk : Bool)
    (hv : validateTicket (getTicket j) = none) :
    (postData conf baseEnv t (some j) true true insertOk false).exit = ExitKind.fatalExit := by
  cases insertOk <;> simp [postData, hv, Json.compactStr_ne_empty j]

/-- C3, witness at a concrete input. -/
theorem c3_spawn_failure_terminates_process_witness :
    (postData conf0 [] t0 (some reqJson) true true true false).exit = ExitKind.fatalExit :=
  c3_spawn_failure_terminates_process conf0 [] t0 reqJson true (by decide)

/-- C5: a body that is not valid JSON is answered with status 452 and the
error message from src/main.go line 129, and produces no side effects at
all: no file write, no database open, no insert, no spawn. -/
theorem c5_malformed_json_no_side_effects (conf : Config) (baseEnv : List String)
    (t : Timestamp) (writeOk openOk insertOk spawnOk : Bool) :
    postData conf baseEnv t none writeOk openOk insertOk spawnOk =
      { responses := [⟨452, .err "Could not convert POST data to JSON"⟩],
        effects := Effects.none, exit := ExitKind.normal } :=
  rfl

/-- C4: a valid JSON body whose `ticket` is missing (decoded as the zero
value `""`) or not all-alphanumeric is answered with status 453 and the
aggregated validation message for the violated field, and produces no
side effects: no file write, no database open, no insert, no spawn. -/
theorem c4_validation_error_no_side_effects (conf : Config) (baseEnv : List String)
    (t : Timestamp) (j : Json) (writeOk openOk insertOk spawnOk : Bool)
    (h : getTicket j = "" ∨ (getTicket j).data.all isAlphanumChar = false) :
    ∃ msg, validateTicket (getTicket j) = some msg ∧
      postData conf baseEnv t (some j) writeOk openOk insertOk spawnOk =
        { responses := [⟨453, .err ("Validation error. " ++ msg)⟩],
          effects := Effects.none, exit := ExitKind.normal } := by
  have hsome : ∃ msg, validateTicket (getTicket j) = some msg := by
    rcases h with h | h
    · exact ⟨"Value for ticket is required.", by simp [validateTicket, h]⟩
    · by_cases h0 : getTicket j = ""
      · exact ⟨"Value for ticket is required.", by simp [validateTicket, h0]⟩
      · exact ⟨"Value for ticket (" ++ getTicket j ++ ") needs to be alphanum.",
          by simp [validateTicket, h0, h]⟩
  obtain ⟨msg, hmsg⟩ := hsome
  exact ⟨msg, hmsg, by simp [postData, hmsg]⟩

/-- C4, witness: a ticket containing a space is rejected with 453 and no
side effects. -/
theorem c4_validation_error_no_side_effects_witness :
    ∃ msg, validateTicket (getTicket badTicketJson) = some msg ∧
      postData conf0 [] t0 (some badTicketJson) true true true true =
        { responses := [⟨453, .err ("Validation error. " ++ msg)⟩],
          effects := Effects.none, exit := ExitKind.normal } :=
  c4_validation_error_no_side_effects conf0 [] t0 badTicketJson true true true true
    (Or.inr (by decide))

/-- C6: on a valid payload whose file write, database open, insert and
spawn all succeed, exactly one row is inserted, holding the request time
formatted by `fmt.Sprintf` as `YYYY-MM-DD HH:MM:SS` and the compacted
payload string, and the deploy executable is started with the inherited
environment plus `JSON_FILE` pointing at the artifact file. -/
theorem c6_success_inserts_row_and_spawns (conf : Config) (baseEnv : List String)
    (t : Timestamp) (j : Json)
    (hv : validateTicket (getTicket j) = none) :
    (postData conf baseEnv t (some j) true true true true).effects.inserts =
      [⟨formatTimestamp t, j.compactStr⟩] ∧
    (postData conf baseEnv t (some j) true true true true).responses =
      [⟨201, .success ⟨formatTimestamp t, j.compactStr⟩⟩] ∧
    (postData conf baseEnv t (some j) true true true true).effects.spawns =
      [⟨conf.execFile,
        baseEnv ++ ["JSON_FILE=" ++ (conf.dataDir ++ "/" ++ getTicket j ++ ".json")]⟩] := by
  simp [postData, hv, Json.compactStr_ne_empty j]

/-- C6, witness on the spec's example payload. -/
theorem c6_success_inserts_row_and_spawns_witness :
    (postData conf0 [] t0 (some reqJson) true true true true).effects.inserts =
      [⟨formatTimestamp t0, reqJson.compactStr⟩] ∧
    (postData conf0 [] t0 (some reqJson) true true true true).responses =
      [⟨201, .success ⟨formatTimestamp t0, reqJson.compactStr⟩⟩] ∧
    (postData conf0 [] t0 (some reqJson) true true true true).effects.spawns =
      [⟨conf0.execFile,
        [] ++ ["JSON_FILE=" ++ (conf0.dataDir ++ "/" ++ getTicket reqJson ++ ".json")]⟩] :=
  c6_success_inserts_row_and_spawns conf0 [] t0 reqJson (by decide)

/-- C7: on a valid payload, the artifact written is the 2-space-indented
rendering of the compacted payload with a trailing newline, at
`<data_dir>/<ticket>.json`, and it replaces whatever the file system
previously held at that path; when the write fails the response is 455
and the database is never opened, so no row is inserted. -/
theorem c7_artifact_write_and_failure (conf : Config) (baseEnv : List String)
    (t : Timestamp) (j : Json) (writeOk openOk insertOk spawnOk : Bool)
    (fs : String → Option String)
    (hv : validateTicket (getTicket j) = none) :
    (writeOk = true →
      (postData conf baseEnv t (some j) writeOk openOk insertOk spawnOk).effects.fileWrites =
        [(conf.dataDir ++ "/" ++ getTicket j ++ ".json", j.indentStr 0 ++ "\n")] ∧
      applyWrites fs
        (postData conf baseEnv t (some j) writeOk openOk insertOk spawnOk).effects.fileWrites
        (conf.dataDir ++ "/" ++ getTicket j ++ ".json") =
        some (j.indentStr 0 ++ "\n")) ∧
    (writeOk = false →
      (postData conf baseEnv t (some j) writeOk openOk insertOk spawnOk).responses =
        [⟨455, .err ("Unable to create " ++ (conf.dataDir ++ "/" ++ getTicket j ++ ".json"))⟩] ∧
      (postData conf baseEnv t (some j) writeOk openOk insertOk spawnOk).effects =
        Effects.none) := by
  cases writeOk <;> cases openOk <;> cases insertOk <;> cases spawnOk <;>
    simp [postData, hv, Json.compactStr_ne_empty j, applyWrites]

/-- C7, witness: the success side at a concrete input, over a file system
that already holds a stale artifact at the target path. -/
theorem c7_artifact_write_and_failure_witness :
    (postData conf0 [] t0 (some reqJson) true true true true).effects.fileWrites =
      [(conf0.dataDir ++ "/" ++ getTicket reqJson ++ ".json", reqJson.indentStr 0 ++ "\n")] ∧
    applyWrites (fun _ => some "stale")
      (postData conf0 [] t0 (some reqJson) true true true true).effects.fileWrites
      (conf0.dataDir ++ "/" ++ getTicket reqJson ++ ".json") =
      some (reqJson.indentStr 0 ++ "\n") :=
  (c7_artifact_write_and_failure conf0 [] t0 reqJson true true true true
    (fun _ => some "stale") (by decide)).1 rfl

/-- C8: when the configured `API_TOKEN` secret is non-empty, any request
whose `token` header (read as `""` when missing) differs from the secret
is answered 401 with a JSON error body and reaches none of the pipeline —
no file, no database open, no insert, no spawn; when the secret is empty,
the middleware is not installed and the request goes straight to
`PostData` whatever the header holds. -/
theorem c8_token_auth (secret tok : String) (conf : Config) (baseEnv : List String)
    (t : Timestamp) (parsed : Option Json) (writeOk openOk insertOk spawnOk : Bool) :
    (secret ≠ "" → tok ≠ secret →
      handleRequest secret tok conf baseEnv t parsed writeOk openOk insertOk spawnOk =
        { responses :=
            [⟨401, .err (if tok = "" then "API token required" else "Invalid API token")⟩],
          effects := Effects.none, exit := ExitKind.normal }) ∧
    (secret = "" →
      handleRequest secret tok conf baseEnv t parsed writeOk openOk insertOk spawnOk =
        postData conf baseEnv t parsed writeOk openOk insertOk spawnOk) := by
  constructor
  · intro hs ht
    by_cases h0 : tok = "" <;> simp [handleRequest, hs, ht, h0]
  · intro hs
    simp [handleRequest, hs]

/-- C8, witness: a wrong token against a non-empty secret is rejected
401, and with an empty secret the same request reaches the pipeline. -/
theorem c8_token_auth_witness :
    handleRequest "s3cret" "wrong" conf0 [] t0 (some reqJson) true true true true =
      { responses := [⟨401, .err "Invalid API token"⟩],
        effects := Effects.none, exit := ExitKind.normal } ∧
    handleRequest "" "wrong" conf0 [] t0 (some reqJson) true true true true =
      postData conf0 [] t0 (some reqJson) true true true true := by
  constructor
  · have h := (c8_token_auth "s3cret" "wrong" conf0 [] t0 (some reqJson)
      true true true true).1 (by decide) (by decide)
    simpa using h
  · exact (c8_token_auth "" "wrong" conf0 [] t0 (some reqJson)
      true true true true).2 rfl

/-- C9: the compacted payload of any parsed body is a non-empty string,
so a request whose file write succeeded never takes the 456
`Fields are empty` branch, and inserts its row whenever the database
open and insert themselves succeed. -/
theorem c9_empty_branch_unreachable (conf : Config) (baseEnv : List String)
    (t : Timestamp) (j : Json) (openOk insertOk spawnOk : Bool)
    (hv : validateTicket (getTicket j) = none) :
    j.compactStr ≠ "" ∧
    (∀ resp ∈ (postData conf baseEnv t (some j) true openOk insertOk spawnOk).responses,
      resp.status ≠ 456) ∧
    (openOk = true → insertOk = true →
      (postData conf baseEnv t (some j) true openOk insertOk spawnOk).effects.inserts =
        [⟨formatTimestamp t, j.compactStr⟩]) := by
  refine ⟨Json.compactStr_ne_empty j, ?_, ?_⟩ <;>
    cases openOk <;> cases insertOk <;> cases spawnOk <;>
      simp [postData, hv, Json.compactStr_ne_empty j]

/-- C9, witness at a concrete input. -/
theorem c9_empty_branch_unreachable_witness :
    reqJson.compactStr ≠ "" ∧
    (∀ resp ∈ (postData conf0 [] t0 (some reqJson) true true true true).responses,
      resp.status ≠ 456) ∧
    (True = True → True = True →
      (postData conf0 [] t0 (some reqJson) true true true true).effects.inserts =
        [⟨formatTimestamp t0, reqJson.compactStr⟩]) := by
  have h := c9_empty_branch_unreachable conf0 [] t0 reqJson true true true (by decide)
  exact ⟨h.1, h.2.1, fun _ _ => h.2.2 rfl rfl⟩

/-- The artifact writes any run of the handler can perform: either none,
or the single file derived from a validated ticket. -/
theorem fileWrites_shape (conf : Config) (baseEnv : List String) (t : Timestamp)
    (parsed : Option Json) (writeOk openOk insertOk spawnOk : Bool) :
    (postData conf baseEnv t parsed writeOk openOk insertOk spawnOk).effects.fileWrites = [] ∨
    ∃ j, parsed = some j ∧ validateTicket (getTicket j) = none ∧
      (postData conf baseEnv t parsed writeOk openOk insertOk spawnOk).effects.fileWrites =
        [(conf.dataDir ++ "/" ++ getTicket j ++ ".json", j.indentStr 0 ++ "\n")] := by
  cases parsed with
  | none => left; rfl
  | some j =>
      cases hv : validateTicket (getTicket j) with
      | some m => left; simp [postData, hv, Effects.none]
      | none =>
          cases writeOk with
          | false => left; simp [postData, hv, Effects.none]
          | true =>
              right
              exact ⟨j, rfl, hv, by
                cases openOk <;> cases insertOk <;> cases spawnOk <;>
                  simp [postData, hv, Json.compactStr_ne_empty j]⟩

/-- C10: every file the handler writes sits directly inside the
configured data directory: its path is `<data_dir>/<ticket>.json` for a
validated ticket, which is non-empty, all-alphanumeric, and therefore
free of `/`, `\` and `.` — client input cannot introduce path separators
or `..` components. -/
theorem c10_artifact_path_inside_data_dir (conf : Config) (baseEnv : List String)
    (t : Timestamp) (parsed : Option Json) (writeOk openOk insertOk spawnOk : Bool)
    (p c : String)
    (hmem : (p, c) ∈
      (postData conf baseEnv t parsed writeOk openOk insertOk spawnOk).effects.fileWrites) :
    ∃ ticket : String, ticket ≠ "" ∧ ticket.data.all isAlphanumChar = true ∧
      p = conf.dataDir ++ "/" ++ ticket ++ ".json" ∧
      '/' ∉ ticket.data ∧ '\\' ∉ ticket.data ∧ '.' ∉ ticket.data := by
  rcases fileWrites_shape conf baseEnv t parsed writeOk openOk insertOk spawnOk with
    h | ⟨j, hp, hv, h⟩
  · rw [h] at hmem
    exact absurd hmem (List.not_mem_nil _)
  · rw [h] at hmem
    rw [List.mem_singleton, Prod.mk.injEq] at hmem
    obtain ⟨hpath, -⟩ := hmem
    obtain ⟨hne, hall⟩ := validateTicket_none _ hv
    exact ⟨getTicket j, hne, hall, hpath,
      not_mem_of_all_alphanum _ _ hall (by decide),
      not_mem_of_all_alphanum _ _ hall (by decide),
      not_mem_of_all_alphanum _ _ hall (by decide)⟩

/-- C10, witness at a concrete input whose artifact path is
`/var/data/AB12.json`. -/
theorem c10_artifact_path_inside_data_dir_witness :
    ∃ ticket : String, ticket ≠ "" ∧ ticket.data.all isAlphanumChar = true ∧
      conf0.dataDir ++ "/" ++ getTicket reqJson ++ ".json" =
        conf0.dataDir ++ "/" ++ ticket ++ ".json" ∧
      '/' ∉ ticket.data ∧ '\\' ∉ ticket.data ∧ '.' ∉ ticket.data :=
  c10_artifact_path_inside_data_dir conf0 [] t0 (some reqJson) true true true true
    (conf0.dataDir ++ "/" ++ getTicket reqJson ++ ".json") (reqJson.indentStr 0 ++ "\n")
    (by decide)

end GinApi
